import Mathlib

/-!
Verification development for the go-safego repository (package `safego`).

The repository launches goroutines under a fault barrier.  The embedding
below translates the Go sources into pure Lean functions:

* Go errors are values of the inductive type `Err π`, where `π` is the
  type of panic payloads (Go's `interface{}`); `renderErr` is the `%v`
  rendering of an error, translated from the `Error()` methods in
  `errors.go` and from `errors.New`.
* A `context.Context` is observed by this package only through the
  `<-c.Done()` / `c.Err()` pair at the single start checkpoint; a context
  is therefore modelled as a `cancelled` flag plus the `reason` value
  that `c.Err()` returns once the context is done.
* A task `func()` either returns or panics (`UnitTask`); a task
  `func() error` returns an optional error or panics (`ErrTask`).
* A completion channel is observed through the totally ordered sequence
  of operations the single producing goroutine performs on it, recorded
  as a list of `ChanEv` events (`write d` for `doneCh <- Done{Error: d}`,
  `close` for `close(doneCh)`).
* The package-level `logger` variable ranges over `LoggerV`; each call
  `logger.Printf(...)` is recorded as the receiver paired with the
  formatted message.

`src/unnamed/part_001` contains the functions `Go`, `GoWithErrorHandler`,
`ChanGo` and `ChanGoWithError` verbatim identical to `src/safego.go`, so
one model (`GoRun`, `GoWithErrorHandlerRun`, `ChanGoRun`,
`ChanGoWithErrorRun`) covers both.  `src/unnamed/part_000` and
`src/unnamed/part_002` hold older variants modelled separately
(`part000ChanGoRun`, `part002ChanGoRun`).
-/

/-- A Go `error` value as it can occur in this package: a
`*safego.PanicError` (fields `Value`, `StackTrace`), a
`*safego.CancelError` (field `Cause`), or a plain textual error as
produced by `errors.New` / supplied by the caller.  `π` is the type of
panic payloads. -/
inductive Err (π : Type) where
  | panicError (Value : π) (StackTrace : String)
  | cancelError (Cause : Err π)
  | errorsNew (msg : String)
  deriving DecidableEq

/-- The `%v` rendering of an error: `Error()` from `errors.go` for the
two structured types, the stored message for `errors.New` errors.
`rp` renders a panic payload (`%v` on `interface{}`). -/
def renderErr {π : Type} (rp : π → String) : Err π → String
  | .panicError v _ => "goroutine panic: " ++ rp v
  | .cancelError c => "goroutine cancelled: " ++ renderErr rp c
  | .errorsNew m => m

/-- Whether the error is a `*safego.PanicError` (a Go type assertion
`err.(*PanicError)` succeeding). -/
def Err.isPanicError {π : Type} : Err π → Bool
  | .panicError _ _ => true
  | _ => false

/-- The `Value` field of a `*safego.PanicError`, when the error is one. -/
def Err.panicValue {π : Type} : Err π → Option π
  | .panicError v _ => some v
  | _ => none

/-- The `StackTrace` field of a `*safego.PanicError`, when the error is one. -/
def Err.panicStack {π : Type} : Err π → Option String
  | .panicError _ st => some st
  | _ => none

/-- A `context.Context` as consulted by this package: whether it is
already done at the start checkpoint, and the error `c.Err()` reports
once done (`context.Canceled` or `context.DeadlineExceeded`, modelled as
an `Err`). -/
structure Ctx (π : Type) where
  cancelled : Bool
  reason : Err π
  deriving DecidableEq

/-- Whether the start checkpoint sees an already-cancelled context:
the variadic `ctx` parameter is non-empty and `ctx[0]` is done. -/
def startCancelled {π : Type} : List (Ctx π) → Bool
  | [] => false
  | c :: _ => c.cancelled

/-- The reason of the first context (only consulted when
`startCancelled` holds). -/
def ctxReason {π : Type} : List (Ctx π) → Err π
  | [] => .errorsNew ""
  | c :: _ => c.reason

/-- A task of Go type `func()`: it either returns normally or panics
with payload `p`. -/
inductive UnitTask (π : Type) where
  | ret
  | panics (p : π)
  deriving DecidableEq

/-- A task of Go type `func() error`: it returns an optional error
(`none` = nil) or panics with payload `p`. -/
inductive ErrTask (π : Type) where
  | ret (e : Option (Err π))
  | panics (p : π)
  deriving DecidableEq

/-- The package-level `logger` variable (`logger.go`): the default
standard-library-backed logger, the no-op logger, or a caller-supplied
custom logger identified by a tag. -/
inductive LoggerV where
  | defaultL
  | noop
  | custom (id : Nat)
  deriving DecidableEq

/-- `SetLogger` from `logger.go`, as written: after the conditional
assignment, `logger = &noopLogger{}` runs unconditionally. -/
def SetLogger (l : Option LoggerV) (logger : LoggerV) : LoggerV :=
  let logger := match l with
    | some lg => lg
    | none => logger
  let _ := logger
  LoggerV.noop

/-- One operation performed by the producing goroutine on its completion
channel: `write d` is `doneCh <- Done{Error: d}` (the envelope is
identified with its `Error` field, `none` = nil), `close` is
`close(doneCh)`. -/
inductive ChanEv (π : Type) where
  | write (d : Option (Err π))
  | close
  deriving DecidableEq

/-- Number of channel writes in an event sequence. -/
def writesCount {π : Type} : List (ChanEv π) → Nat
  | [] => 0
  | .write _ :: es => writesCount es + 1
  | .close :: es => writesCount es

/-- Observable behaviour of one `Go` invocation: every `logger.Printf`
call (receiver paired with the formatted message), and whether the task
body `fn` was invoked. -/
structure GoOut (π : Type) where
  printfCalls : List (LoggerV × String)
  bodyInvoked : Bool
  deriving DecidableEq

/-- `Go` from `src/safego.go` (identical in `src/unnamed/part_001`),
run with the package logger currently equal to `logger`.  The goroutine
defers a recover that logs `"recovered from panic in goroutine: %v"`;
with a supplied context whose `Done` channel is already closed the
select takes the cancellation case, logs
`"goroutine cancelled: %v"` of `c.Err()` and returns without calling
`fn`; otherwise it calls `fn`. -/
def GoRun {π : Type} (logger : LoggerV) (fn : UnitTask π)
    (ctx : List (Ctx π)) (rp : π → String) : GoOut π :=
  match ctx with
  | c :: _ =>
    if c.cancelled then
      { printfCalls := [(logger, "goroutine cancelled: " ++ renderErr rp c.reason)]
        bodyInvoked := false }
    else
      match fn with
      | .ret => { printfCalls := [], bodyInvoked := true }
      | .panics p =>
        { printfCalls := [(logger, "recovered from panic in goroutine: " ++ rp p)]
          bodyInvoked := true }
  | [] =>
    match fn with
    | .ret => { printfCalls := [], bodyInvoked := true }
    | .panics p =>
      { printfCalls := [(logger, "recovered from panic in goroutine: " ++ rp p)]
        bodyInvoked := true }

/-- Observable behaviour of one `GoWithErrorHandler` invocation: the
arguments of the `errorHandler` calls in order, whether the task body
was invoked, and a panic that escaped the goroutine unrecovered (a
panic raised by the handler inside the deferred recovery). -/
structure HandlerOut (π : Type) where
  handlerCalls : List (Err π)
  bodyInvoked : Bool
  unrecovered : Option π
  deriving DecidableEq

/-- `GoWithErrorHandler` from `src/safego.go` (identical in
`src/unnamed/part_000`, `part_001` and `part_002`).  The handler `hb`
itself may panic: `hb e = some q` means the call `errorHandler(e)`
panics with payload `q`, `none` means it returns.  The goroutine body:
with an already-done first context it builds
`errors.New("goroutine cancelled: %v")` of `c.Err()` and calls the
handler; otherwise it runs `fn` and calls the handler on a non-nil
returned error.  The deferred recover catches any panic still pending
(from `fn` or from a handler call in the body) and calls the handler
once more with `errors.New("recovered from panic in goroutine: %v")`;
a panic raised by that final call is not recovered. -/
def GoWithErrorHandlerRun {π : Type} (fn : ErrTask π)
    (hb : Err π → Option π) (ctx : List (Ctx π)) (rp : π → String) :
    HandlerOut π :=
  -- body phase: handler calls so far, panic still propagating, body invoked
  let body : List (Err π) × Option π × Bool :=
    match ctx with
    | c :: _ =>
      if c.cancelled then
        let e : Err π := .errorsNew ("goroutine cancelled: " ++ renderErr rp c.reason)
        ([e], hb e, false)
      else
        match fn with
        | .ret none => ([], none, true)
        | .ret (some e) => ([e], hb e, true)
        | .panics p => ([], some p, true)
    | [] =>
      match fn with
      | .ret none => ([], none, true)
      | .ret (some e) => ([e], hb e, true)
      | .panics p => ([], some p, true)
  match body with
  | (calls, none, invoked) =>
    { handlerCalls := calls, bodyInvoked := invoked, unrecovered := none }
  | (calls, some r, invoked) =>
    let e : Err π := .errorsNew ("recovered from panic in goroutine: " ++ rp r)
    { handlerCalls := calls ++ [e], bodyInvoked := invoked, unrecovered := hb e }

/-- Observable behaviour of one awaitable invocation: the channel
operations of the producing goroutine in program order, and whether the
task body was invoked. -/
structure ChanOut (π : Type) where
  events : List (ChanEv π)
  bodyInvoked : Bool
  deriving DecidableEq

/-- `ChanGo` from `src/safego.go` (identical in `src/unnamed/part_001`).
`stack` is the string `string(debug.Stack())` captured at the point of a
panic.  The body sets `err = &CancelError{Cause: c.Err()}` when the
first context is already done (without calling `fn`), else calls `fn`;
the deferred recover turns a panic into
`&PanicError{Value: r, StackTrace: string(debug.Stack())}`, then always
sends `Done{Error: err}` once and closes the channel. -/
def ChanGoRun {π : Type} (fn : UnitTask π) (ctx : List (Ctx π))
    (stack : String) : ChanOut π :=
  -- body phase: err variable, panic still propagating, body invoked
  let body : Option (Err π) × Option π × Bool :=
    match ctx with
    | c :: _ =>
      if c.cancelled then (some (.cancelError c.reason), none, false)
      else
        match fn with
        | .ret => (none, none, true)
        | .panics p => (none, some p, true)
    | [] =>
      match fn with
      | .ret => (none, none, true)
      | .panics p => (none, some p, true)
  match body with
  | (err, none, invoked) =>
    { events := [.write err, .close], bodyInvoked := invoked }
  | (_, some r, invoked) =>
    { events := [.write (some (.panicError r stack)), .close], bodyInvoked := invoked }

/-- `ChanGoWithError` from `src/safego.go` (identical in
`src/unnamed/part_001`): like `ChanGoRun`, but a non-nil error returned
by `fn` is stored in `err` before the deferred send-and-close. -/
def ChanGoWithErrorRun {π : Type} (fn : ErrTask π) (ctx : List (Ctx π))
    (stack : String) : ChanOut π :=
  let body : Option (Err π) × Option π × Bool :=
    match ctx with
    | c :: _ =>
      if c.cancelled then (some (.cancelError c.reason), none, false)
      else
        match fn with
        | .ret e => (e, none, true)
        | .panics p => (none, some p, true)
    | [] =>
      match fn with
      | .ret e => (e, none, true)
      | .panics p => (none, some p, true)
  match body with
  | (err, none, invoked) =>
    { events := [.write err, .close], bodyInvoked := invoked }
  | (_, some r, invoked) =>
    { events := [.write (some (.panicError r stack)), .close], bodyInvoked := invoked }

/-- `ChanGo` from `src/unnamed/part_000`.  The body sends
`Done{Error: errors.New("goroutine cancelled: %v")}` itself on an
already-done context; the deferred function sends
`Done{Error: errors.New("recovered from panic in goroutine: %v")}` on a
recovered panic, then unconditionally sends `Done{Error: nil}` and
closes the channel. -/
def part000ChanGoRun {π : Type} (fn : UnitTask π) (ctx : List (Ctx π))
    (rp : π → String) : ChanOut π :=
  -- body phase: events sent by the body, panic still propagating, body invoked
  let body : List (ChanEv π) × Option π × Bool :=
    match ctx with
    | c :: _ =>
      if c.cancelled then
        ([.write (some (.errorsNew ("goroutine cancelled: " ++ renderErr rp c.reason)))],
          none, false)
      else
        match fn with
        | .ret => ([], none, true)
        | .panics p => ([], some p, true)
    | [] =>
      match fn with
      | .ret => ([], none, true)
      | .panics p => ([], some p, true)
  match body with
  | (evs, none, invoked) =>
    { events := evs ++ [.write none, .close], bodyInvoked := invoked }
  | (evs, some r, invoked) =>
    { events := evs
        ++ [.write (some (.errorsNew ("recovered from panic in goroutine: " ++ rp r))),
            .write none, .close]
      bodyInvoked := invoked }

/-- `ChanGo` from `src/unnamed/part_002` (a `chan error`): the body
sends `errors.New("goroutine cancelled: %v")` on an already-done
context; the deferred function sends
`errors.New("recovered from panic in goroutine: %v")` only on a
recovered panic and then closes the channel — on a normal return
nothing is ever written. -/
def part002ChanGoRun {π : Type} (fn : UnitTask π) (ctx : List (Ctx π))
    (rp : π → String) : ChanOut π :=
  let body : List (ChanEv π) × Option π × Bool :=
    match ctx with
    | c :: _ =>
      if c.cancelled then
        ([.write (some (.errorsNew ("goroutine cancelled: " ++ renderErr rp c.reason)))],
          none, false)
      else
        match fn with
        | .ret => ([], none, true)
        | .panics p => ([], some p, true)
    | [] =>
      match fn with
      | .ret => ([], none, true)
      | .panics p => ([], some p, true)
  match body with
  | (evs, none, invoked) => { events := evs ++ [.close], bodyInvoked := invoked }
  | (evs, some r, invoked) =>
    { events := evs
        ++ [.write (some (.errorsNew ("recovered from panic in goroutine: " ++ rp r))),
            .close]
      bodyInvoked := invoked }

/-- Whether the error is a `*safego.CancelError` (a Go type assertion
`err.(*CancelError)` succeeding). -/
def Err.isCancelError {π : Type} : Err π → Bool
  | .cancelError _ => true
  | _ => false

/-- The construction in the deferred recover of `ChanGo` and
`ChanGoWithError` (`src/safego.go`): the fault classifier turning a
recovered payload `r` and the captured `string(debug.Stack())` into
`&PanicError{Value: r, StackTrace: ...}`. -/
def classifyPanic {π : Type} (r : π) (stack : String) : Err π :=
  .panicError r stack

/-- Spec-side description of the fire-and-forget log-only variant `Go`:
first classify the invocation (cancelled at start / faulted / returned
normally), then report accordingly — nothing on success, the recovered
fault to the process-wide logger on a panic, a cancellation note to the
logger (without running the body) on cancellation-at-start. -/
def goC6Spec {π : Type} (logger : LoggerV) (fn : UnitTask π)
    (ctx : List (Ctx π)) (rp : π → String) : GoOut π :=
  if startCancelled ctx then
    { printfCalls := [(logger, "goroutine cancelled: " ++ renderErr rp (ctxReason ctx))]
      bodyInvoked := false }
  else
    match fn with
    | .ret => { printfCalls := [], bodyInvoked := true }
    | .panics p =>
      { printfCalls := [(logger, "recovered from panic in goroutine: " ++ rp p)]
        bodyInvoked := true }

/-- Claim C1, failing input: in the `src/unnamed/part_000` variant of
`ChanGo`, a task panicking with payload `"boom"` makes the goroutine
write two values to the completion channel (the recovered-panic error
from the deferred recover, then the unconditional `Done{Error: nil}`)
before the single close — not exactly one terminal value as claimed.
The current `src/safego.go` variant at the same input writes exactly
one value and then closes. -/
theorem c1_part000_chanGo_double_write_on_panic :
    (part000ChanGoRun (.panics "boom") ([] : List (Ctx String)) id).events
      = [.write (some (.errorsNew "recovered from panic in goroutine: boom")),
          .write none, .close]
    ∧ writesCount (part000ChanGoRun (.panics "boom") ([] : List (Ctx String)) id).events = 2
    ∧ (ChanGoRun (.panics "boom") ([] : List (Ctx String)) "goroutine 1 [running]:").events
      = [.write (some (.panicError "boom" "goroutine 1 [running]:")), .close]
    ∧ writesCount (ChanGoRun (.panics "boom") ([] : List (Ctx String))
        "goroutine 1 [running]:").events = 1 :=
  ⟨rfl, rfl, rfl, rfl⟩

/-- Claim C2, failing input: `SetLogger` (`src/logger.go`, both copies)
runs `logger = &noopLogger{}` unconditionally after the `if l != nil`
assignment, so installing a custom logger leaves the package logger
equal to the no-op logger, and a subsequent panicking `Go` task reports
its failure to the no-op logger — `Printf` on the installed logger is
never called.  Passing nil does install the no-op logger, as the claim
also states. -/
theorem c2_setLogger_always_installs_noop :
    SetLogger (some (.custom 7)) .defaultL = .noop
    ∧ SetLogger none .defaultL = .noop
    ∧ (GoRun (SetLogger (some (.custom 7)) .defaultL) (.panics "boom") [] id).printfCalls
        = [(.noop, "recovered from panic in goroutine: boom")] :=
  ⟨rfl, rfl, rfl⟩

/-- Claim C3 (amended): in the current awaitable variants
(`ChanGo` and `ChanGoWithError` of `src/safego.go`, identical in
`src/unnamed/part_001`), a task that panics with payload `p` — with the
context not already cancelled at the start checkpoint, so the body
actually runs — delivers exactly one `Done` whose error is a
`PanicError` with `Value = p` unmodified and `StackTrace` the captured
stack, which is non-empty (`debug.Stack` never returns an empty
string), and then the channel is closed. -/
theorem c3_chanGo_panic_delivers_panicError {π : Type} (p : π) (stack : String)
    (ctx : List (Ctx π)) (hst : stack ≠ "") (hc : startCancelled ctx = false) :
    (ChanGoRun (.panics p) ctx stack).events
      = [.write (some (.panicError p stack)), .close]
    ∧ (ChanGoWithErrorRun (.panics p) ctx stack).events
      = [.write (some (.panicError p stack)), .close]
    ∧ stack ≠ "" := by
  refine ⟨?_, ?_, hst⟩ <;>
    cases ctx with
    | nil => rfl
    | cons c rest =>
      simp only [startCancelled] at hc
      simp [ChanGoRun, ChanGoWithErrorRun, hc]

/-- Witness for C3 at a concrete input. -/
theorem c3_chanGo_panic_delivers_panicError_witness :
    ("goroutine 1 [running]:" ≠ "" ∧ startCancelled ([] : List (Ctx String)) = false)
    ∧ ((ChanGoRun (.panics "pay") ([] : List (Ctx String)) "goroutine 1 [running]:").events
        = [.write (some (.panicError "pay" "goroutine 1 [running]:")), .close]
      ∧ (ChanGoWithErrorRun (.panics "pay") ([] : List (Ctx String))
          "goroutine 1 [running]:").events
        = [.write (some (.panicError "pay" "goroutine 1 [running]:")), .close]
      ∧ "goroutine 1 [running]:" ≠ "") :=
  ⟨⟨by decide, rfl⟩,
    c3_chanGo_panic_delivers_panicError "pay" "goroutine 1 [running]:" [] (by decide) rfl⟩

/-- Claim C3, counterexample: in the `src/unnamed/part_000` variant of
`ChanGo`, a task panicking with payload `"bang"` delivers an
`errors.New` error whose message merely embeds the payload — not a
`PanicError` with a `Value` field — so the claim as stated fails on
that awaitable variant of the repository. -/
theorem c3_part000_panic_not_panicError :
    (part000ChanGoRun (.panics "bang") ([] : List (Ctx String)) id).events
      = [.write (some (.errorsNew "recovered from panic in goroutine: bang")),
          .write none, .close]
    ∧ Err.isPanicError (.errorsNew "recovered from panic in goroutine: bang" : Err String)
        = false :=
  ⟨rfl, rfl⟩

/-- Claim C4 (amended): for every launch variant of `src/safego.go`
invoked with a first context already cancelled before the task starts,
the task body is never invoked; the awaitable variants deliver a
`CancelError` whose `Cause` is the context's error and then close the
channel; `Go` passes a cancellation note embedding the reason to the
process-wide logger; and `GoWithErrorHandler` passes to its handler a
plain `errors.New` error embedding the reason (not a `CancelError`). -/
theorem c4_precancelled_short_circuit {π : Type} (logger : LoggerV)
    (fnU : UnitTask π) (fnE : ErrTask π) (hb : Err π → Option π)
    (c : Ctx π) (rest : List (Ctx π)) (stack : String) (rp : π → String)
    (hc : c.cancelled = true) :
    (GoRun logger fnU (c :: rest) rp).bodyInvoked = false
    ∧ (GoRun logger fnU (c :: rest) rp).printfCalls
        = [(logger, "goroutine cancelled: " ++ renderErr rp c.reason)]
    ∧ (GoWithErrorHandlerRun fnE hb (c :: rest) rp).bodyInvoked = false
    ∧ (GoWithErrorHandlerRun fnE hb (c :: rest) rp).handlerCalls.head?
        = some (.errorsNew ("goroutine cancelled: " ++ renderErr rp c.reason))
    ∧ (ChanGoRun fnU (c :: rest) stack).bodyInvoked = false
    ∧ (ChanGoRun fnU (c :: rest) stack).events
        = [.write (some (.cancelError c.reason)), .close]
    ∧ (ChanGoWithErrorRun fnE (c :: rest) stack).bodyInvoked = false
    ∧ (ChanGoWithErrorRun fnE (c :: rest) stack).events
        = [.write (some (.cancelError c.reason)), .close] := by
  refine ⟨?_, ?_, ?_, ?_, ?_, ?_, ?_, ?_⟩ <;>
    first
    | simp [GoRun, ChanGoRun, ChanGoWithErrorRun, hc]
    | (rcases h2 : hb (.errorsNew ("goroutine cancelled: " ++ renderErr rp c.reason))
        with _ | q <;>
        simp [GoWithErrorHandlerRun, hc, h2])

/-- Witness for C4 at a concrete input. -/
theorem c4_precancelled_short_circuit_witness :
    ((⟨true, .errorsNew "context canceled"⟩ : Ctx String).cancelled = true)
    ∧ ((GoRun .defaultL .ret
          [(⟨true, .errorsNew "context canceled"⟩ : Ctx String)] id).bodyInvoked = false
      ∧ (GoRun .defaultL .ret
          [(⟨true, .errorsNew "context canceled"⟩ : Ctx String)] id).printfCalls
          = [(.defaultL, "goroutine cancelled: "
              ++ renderErr id (.errorsNew "context canceled"))]
      ∧ (GoWithErrorHandlerRun (.ret none) (fun _ => none)
          [(⟨true, .errorsNew "context canceled"⟩ : Ctx String)] id).bodyInvoked = false
      ∧ (GoWithErrorHandlerRun (.ret none) (fun _ => none)
          [(⟨true, .errorsNew "context canceled"⟩ : Ctx String)] id).handlerCalls.head?
          = some (.errorsNew ("goroutine cancelled: "
              ++ renderErr id (.errorsNew "context canceled")))
      ∧ (ChanGoRun .ret
          [(⟨true, .errorsNew "context canceled"⟩ : Ctx String)] "st").bodyInvoked = false
      ∧ (ChanGoRun .ret
          [(⟨true, .errorsNew "context canceled"⟩ : Ctx String)] "st").events
          = [.write (some (.cancelError (.errorsNew "context canceled"))), .close]
      ∧ (ChanGoWithErrorRun (.ret none)
          [(⟨true, .errorsNew "context canceled"⟩ : Ctx String)] "st").bodyInvoked = false
      ∧ (ChanGoWithErrorRun (.ret none)
          [(⟨true, .errorsNew "context canceled"⟩ : Ctx String)] "st").events
          = [.write (some (.cancelError (.errorsNew "context canceled"))), .close]) :=
  ⟨rfl, c4_precancelled_short_circuit .defaultL .ret (.ret none) (fun _ => none)
      ⟨true, .errorsNew "context canceled"⟩ [] "st" id rfl⟩

/-- Claim C4, counterexample: `GoWithErrorHandler` with a pre-cancelled
context passes a plain `errors.New` error to the handler, not a
`CancelError` carrying the reason as `Cause`, so the claim's "delivered
failure is a CancelError" fails for that launch variant (the body is
indeed never invoked). -/
theorem c4_goWithErrorHandler_cancel_not_cancelError :
    (GoWithErrorHandlerRun (.ret none) (fun _ => none)
        [(⟨true, .errorsNew "context canceled"⟩ : Ctx String)] id).handlerCalls
      = [.errorsNew "goroutine cancelled: context canceled"]
    ∧ Err.isCancelError
        (.errorsNew "goroutine cancelled: context canceled" : Err String) = false
    ∧ (GoWithErrorHandlerRun (.ret none) (fun _ => none)
        [(⟨true, .errorsNew "context canceled"⟩ : Ctx String)] id).bodyInvoked = false :=
  ⟨rfl, rfl, rfl⟩

/-- Claim C5, failing input: in the `src/unnamed/part_002` variant of
`ChanGo`, a task that completes normally makes the goroutine close the
channel without ever writing a value — not the claimed single
`Done{Error: nil}` followed by close.  The current `src/safego.go`
variants at the same input write exactly one nil-error value and then
close. -/
theorem c5_part002_chanGo_silent_success :
    (part002ChanGoRun (.ret : UnitTask String) [] id).events = [.close]
    ∧ writesCount (part002ChanGoRun (.ret : UnitTask String) [] id).events = 0
    ∧ (ChanGoRun (.ret : UnitTask String) [] "st").events = [.write none, .close]
    ∧ (ChanGoWithErrorRun (.ret none : ErrTask String) [] "st").events
        = [.write none, .close] :=
  ⟨rfl, rfl, rfl, rfl⟩

/-- Claim C6: the fire-and-forget log-only variant `Go` behaves exactly
as described — on normal return nothing is reported; on a panic the
recovered fault is passed to the process-wide logger; with a context
already cancelled at start a cancellation note is passed to the logger
and the task body is not run (`goC6Spec` is that description). -/
theorem c6_go_reporting {π : Type} (logger : LoggerV) (fn : UnitTask π)
    (ctx : List (Ctx π)) (rp : π → String) :
    GoRun logger fn ctx rp = goC6Spec logger fn ctx rp := by
  cases ctx with
  | nil => cases fn <;> rfl
  | cons c rest =>
    by_cases hc : c.cancelled
    · simp [GoRun, goC6Spec, startCancelled, ctxReason, hc]
    · cases fn <;> simp [GoRun, goC6Spec, startCancelled, ctxReason, hc]

/-- Claim C7 (amended): `GoWithErrorHandler` invokes the caller-supplied
handler at most once per invocation, provided the handler itself returns
normally whenever invoked; a handler that panics on its first invocation
is invoked a second time by the deferred recovery, with the
recovered-panic error. -/
theorem c7_handler_at_most_once {π : Type} (fn : ErrTask π)
    (hb : Err π → Option π) (ctx : List (Ctx π)) (rp : π → String)
    (h : ∀ e, hb e = none) :
    (GoWithErrorHandlerRun fn hb ctx rp).handlerCalls.length ≤ 1 := by
  cases ctx with
  | nil => cases fn with
    | ret e => cases e <;> simp [GoWithErrorHandlerRun, h]
    | panics p => simp [GoWithErrorHandlerRun, h]
  | cons c rest =>
    by_cases hc : c.cancelled
    · simp [GoWithErrorHandlerRun, hc, h]
    · cases fn with
      | ret e => cases e <;> simp [GoWithErrorHandlerRun, hc, h]
      | panics p => simp [GoWithErrorHandlerRun, hc, h]

/-- Witness for C7 at a concrete input. -/
theorem c7_handler_at_most_once_witness :
    (∀ e : Err String, (fun _ => (none : Option String)) e = none)
    ∧ (GoWithErrorHandlerRun (.ret (some (.errorsNew "X"))) (fun _ => none)
        ([] : List (Ctx String)) id).handlerCalls.length ≤ 1 :=
  ⟨fun _ => rfl,
    c7_handler_at_most_once (.ret (some (.errorsNew "X"))) (fun _ => none) [] id
      (fun _ => rfl)⟩

/-- Claim C7, counterexample: a task returning the error `"X"` under a
handler that panics makes `GoWithErrorHandler` invoke the handler twice
in one invocation — once with `"X"` from the body, and once more from
the deferred recovery with the recovered-panic error. -/
theorem c7_panicking_handler_invoked_twice :
    (GoWithErrorHandlerRun (.ret (some (.errorsNew "X"))) (fun _ => some "hp")
        ([] : List (Ctx String)) id).handlerCalls
      = [.errorsNew "X", .errorsNew "recovered from panic in goroutine: hp"]
    ∧ (GoWithErrorHandlerRun (.ret (some (.errorsNew "X"))) (fun _ => some "hp")
        ([] : List (Ctx String)) id).handlerCalls.length = 2 :=
  ⟨rfl, rfl⟩

/-- Claim C8: the fault classifier (the `&PanicError{Value: r,
StackTrace: string(debug.Stack())}` construction of `src/safego.go`,
with `Error()` from `src/errors.go`) carries the fault payload
unmodified in its `Value` field together with the textual trace in
`StackTrace`, and its human-readable `Error()` string
`"goroutine panic: %v"` includes the rendered fault payload. -/
theorem c8_panicError_carries_payload {π : Type} (rp : π → String)
    (p : π) (st : String) :
    (classifyPanic p st).panicValue = some p
    ∧ (classifyPanic p st).panicStack = some st
    ∧ renderErr rp (classifyPanic p st) = "goroutine panic: " ++ rp p
    ∧ ∃ pre, renderErr rp (classifyPanic p st) = pre ++ rp p :=
  ⟨rfl, rfl, rfl, "goroutine panic: ", rfl⟩

/-- Claim C9: every launch variant of `src/safego.go` called with more
than one context in the variadic `ctx` parameter consults only
`ctx[0]`; the additional contexts are ignored, so the observable outcome
equals that of passing the first context alone. -/
theorem c9_only_first_context_consulted {π : Type} (logger : LoggerV)
    (fnU : UnitTask π) (fnE : ErrTask π) (hb : Err π → Option π)
    (stack : String) (rp : π → String) (c : Ctx π) (rest : List (Ctx π)) :
    GoRun logger fnU (c :: rest) rp = GoRun logger fnU [c] rp
    ∧ GoWithErrorHandlerRun fnE hb (c :: rest) rp = GoWithErrorHandlerRun fnE hb [c] rp
    ∧ ChanGoRun fnU (c :: rest) stack = ChanGoRun fnU [c] stack
    ∧ ChanGoWithErrorRun fnE (c :: rest) stack = ChanGoWithErrorRun fnE [c] stack :=
  ⟨rfl, rfl, rfl, rfl⟩

/-- Claim C10: `GoWithErrorHandler` with a task that returns nil without
panicking, and a context (if supplied at all) not cancelled at the start
checkpoint, never invokes the errorHandler — success is silent at the
callback sink. -/
theorem c10_silent_success_no_handler_call {π : Type}
    (hb : Err π → Option π) (ctx : List (Ctx π)) (rp : π → String)
    (h : startCancelled ctx = false) :
    (GoWithErrorHandlerRun (.ret none) hb ctx rp).handlerCalls = [] := by
  cases ctx with
  | nil => rfl
  | cons c rest =>
    simp only [startCancelled] at h
    simp [GoWithErrorHandlerRun, h]

/-- Witness for C10 at a concrete input. -/
theorem c10_silent_success_no_handler_call_witness :
    startCancelled ([] : List (Ctx String)) = false
    ∧ (GoWithErrorHandlerRun (.ret none) (fun _ => some "hp")
        ([] : List (Ctx String)) id).handlerCalls = [] :=
  ⟨rfl, c10_silent_success_no_handler_call (fun _ => some "hp") [] id rfl⟩
